import Mathlib

/-!
Verification development for the DTN trace-visualization pipeline
(`dtn-network-visualizer.py` and `dtn-visualization-scripts.py`).

Embedding conventions:
* Python strings are embedded as `List Char` (`PyStr`); the string methods
  used by the source (`split`, `strip`, `startswith`, `in`) are modelled by
  structurally recursive functions below, so every concrete run is decidable.
* Python floats are embedded as exact rationals (`ℚ`); the arithmetic the
  source performs (`* 10`, `* 0.8`, `100 - x`, `1 - x`, `min`, squaring)
  is exact on the inputs considered, so real/rational arithmetic models it.
* Python `dict` is embedded as an insertion-ordered association list with
  overwrite-in-place semantics (`dictInsert`).
* A Python exception is embedded as `Option.none`; a loop whose enclosing
  `try` keeps the partially built state on an exception is embedded by
  `runKeep`, and a loop whose exception propagates out is embedded by
  `runSteps`.
-/

set_option maxRecDepth 16000
set_option maxHeartbeats 1000000

abbrev PyStr := List Char

/-- Convert a Lean string literal to the embedded string type. -/
def pyStr (s : String) : PyStr := s.toList

/-- Model of Python `str.split(sep)` for a one-character separator. -/
def pySplit (sep : Char) (s : PyStr) : List PyStr :=
  match s with
  | [] => [[]]
  | c :: rest =>
    let r := pySplit sep rest
    if c == sep then [] :: r
    else
      match r with
      | [] => [[c]]
      | h :: t => (c :: h) :: t

/-- Whitespace recognizer used by Python `str.strip()`. -/
def pySpace (c : Char) : Bool :=
  c == ' ' || c == '\t' || c == '\n' || c == '\r'

/-- Model of Python `str.strip()` with no argument. -/
def pyStrip (s : PyStr) : PyStr :=
  ((s.dropWhile pySpace).reverse.dropWhile pySpace).reverse

/-- Model of Python `str.startswith(pre)`. -/
def pyStartsWith (s pre : PyStr) : Bool := pre.isPrefixOf s

/-- Model of the Python membership test `c in s` for a single character. -/
def pyContainsChar (s : PyStr) (c : Char) : Bool := s.any (· == c)

/-- Model of the Python membership test `pat in s` for a substring. -/
def pyContainsSub (s pat : PyStr) : Bool :=
  match s with
  | [] => pat.isEmpty
  | _ :: rest => pat.isPrefixOf s || pyContainsSub rest pat

/-- Numeric value of a list of decimal digits. -/
def digitsVal (ds : List Char) : ℕ :=
  ds.foldl (fun a c => 10 * a + (c.toNat - 48)) 0

/-- Unsigned decimal integer recognizer. -/
def pyIntCore (ds : List Char) : Option ℤ :=
  if !ds.isEmpty && ds.all Char.isDigit then some (digitsVal ds : ℤ) else none

/-- Model of the Python builtin `int(s)` on plain decimal strings
(optional sign, decimal digits; surrounding whitespace stripped). -/
def pyInt (s : PyStr) : Option ℤ :=
  match pyStrip s with
  | '-' :: ds => (pyIntCore ds).map (fun n => -n)
  | '+' :: ds => pyIntCore ds
  | ds => pyIntCore ds

/-- Unsigned decimal literal recognizer with an optional fractional part. -/
def pyFloatCore (ds : List Char) : Option ℚ :=
  let ip := ds.takeWhile (fun c => !(c == '.'))
  let rest := ds.dropWhile (fun c => !(c == '.'))
  match rest with
  | [] =>
    if !ip.isEmpty && ip.all Char.isDigit then some ((digitsVal ip : ℚ)) else none
  | _ :: fp =>
    if (!ip.isEmpty || !fp.isEmpty) && ip.all Char.isDigit && fp.all Char.isDigit
        && !fp.any (· == '.') then
      some ((digitsVal ip : ℚ) + (digitsVal fp : ℚ) / 10 ^ fp.length)
    else none

/-- Model of the Python builtin `float(s)` on plain decimal strings
(optional sign, digits with an optional decimal point; whitespace stripped). -/
def pyFloat (s : PyStr) : Option ℚ :=
  match pyStrip s with
  | '-' :: ds => (pyFloatCore ds).map (fun q => -q)
  | '+' :: ds => pyFloatCore ds
  | ds => pyFloatCore ds

/-- Model of Python `int(x)` on a float value: truncation toward zero. -/
def ratTrunc (q : ℚ) : ℤ := q.num.tdiv (q.den : ℤ)

/-- Model of Python `dict` assignment `m[k] = v`: overwrite in place if the
key is present, append otherwise (insertion order preserved). -/
def dictInsert {κ α : Type} [DecidableEq κ] (m : List (κ × α)) (k : κ) (v : α) :
    List (κ × α) :=
  if k ∈ m.map Prod.fst then
    m.map (fun p => if p.1 = k then (k, v) else p)
  else m ++ [(k, v)]

/-- Model of Python `dict` read `m[k]`. -/
def dictLookup {κ α : Type} [DecidableEq κ] (k : κ) : List (κ × α) → Option α
  | [] => none
  | p :: t => if p.1 = k then some p.2 else dictLookup k t

/-- Run a per-line step over the lines; `none` from a step models an
exception that propagates out of the whole loop. -/
def runSteps {σ : Type} (step : σ → PyStr → Option σ) : σ → List PyStr → Option σ
  | st, [] => some st
  | st, l :: ls =>
    match step st l with
    | some st' => runSteps step st' ls
    | none => none

/-- Run a per-line step over the lines inside an enclosing `try`: an
exception (`none`) ends the loop but the state built so far is kept. -/
def runKeep {σ τ : Type} (step : σ → PyStr → Option σ) (out : σ → τ) :
    σ → List PyStr → τ
  | st, [] => out st
  | st, l :: ls =>
    match step st l with
    | some st' => runKeep step out st' ls
    | none => out st

/-! ## Data model of `dtn-network-visualizer.py` -/

/-- Entry of `self.node_positions` in `DTNNetworkVisualizer`. -/
structure NodeRec where
  x : ℚ
  y : ℚ
  type : ℤ
  is_mobile : Bool
deriving DecidableEq, Repr

abbrev NodeDict := List (ℤ × NodeRec)

/-- Body of the parse branch of `load_node_positions` (lines 70-80):
split the stripped line on commas, require at least 5 fields, convert the
first four positionally, and assign into the dict; a conversion failure is
an exception (`none`). -/
def parseNodeLine (m : NodeDict) (line : PyStr) : Option NodeDict :=
  if (pySplit ',' (pyStrip line)).length ≥ 5 then
    match pyInt (pySplit ',' (pyStrip line))[0]!, pyInt (pySplit ',' (pyStrip line))[1]!,
        pyFloat (pySplit ',' (pyStrip line))[2]!, pyFloat (pySplit ',' (pyStrip line))[3]! with
    | some nid, some nty, some x, some y =>
      some (dictInsert m nid ⟨x, y, nty, decide (nty < 4)⟩)
    | _, _, _, _ => none
  else some m

/-- One iteration of the `load_node_positions` loop (lines 65-80):
a line stripping to `NODE_POSITIONS` turns the section flag on; inside the
section a line containing a comma and not starting with `NodeID` is parsed;
every other line is skipped. There is no transition back out of the section. -/
def nodeLineStep (st : Bool × NodeDict) (line : PyStr) :
    Option (Bool × NodeDict) :=
  if pyStrip line = pyStr "NODE_POSITIONS" then some (true, st.2)
  else if st.1 ∧ pyContainsChar line ',' ∧ ¬ pyStartsWith line (pyStr "NodeID") then
    (parseNodeLine st.2 line).map (fun m => (st.1, m))
  else some st

/-- `load_node_positions` on an already line-split input. The whole loop sits
inside one `try`, so the first conversion failure ends the loop and the dict
built so far is kept. -/
def load_node_positions_lines (ls : List PyStr) : NodeDict :=
  runKeep nodeLineStep Prod.snd (false, []) ls

/-- `DTNNetworkVisualizer.load_node_positions` applied to the file content. -/
def load_node_positions (content : PyStr) : NodeDict :=
  load_node_positions_lines (pySplit '\n' content)

/-! ## Performance summary of `dtn-network-visualizer.py` -/

/-- The `self.performance_data` scalar summary of `DTNNetworkVisualizer`. -/
structure PerfSummary where
  avg_delay : Option ℚ
  avg_throughput : Option ℚ
  total_flows : Option ℤ
deriving DecidableEq, Repr

def emptyPerfSummary : PerfSummary := ⟨none, none, none⟩

/-- One iteration of the `load_performance_metrics` loop (lines 105-111):
substring match selects the key, `line.split(',')[1]` is converted; a missing
second field or a conversion failure is an exception (`none`). -/
def perfLineStep (s : PerfSummary) (line : PyStr) : Option PerfSummary :=
  if pyContainsSub line (pyStr "AverageDelay") then
    match (pySplit ',' line)[1]? with
    | none => none
    | some f => (pyFloat f).map (fun q => { s with avg_delay := some q })
  else if pyContainsSub line (pyStr "AverageThroughput") then
    match (pySplit ',' line)[1]? with
    | none => none
    | some f => (pyFloat f).map (fun q => { s with avg_throughput := some q })
  else if pyContainsSub line (pyStr "TotalFlows") then
    match (pySplit ',' line)[1]? with
    | none => none
    | some f => (pyInt f).map (fun n => { s with total_flows := some n })
  else some s

/-- `DTNNetworkVisualizer.load_performance_metrics` applied to the file
content; the enclosing `try` keeps the values assigned before a failure. -/
def load_performance_metrics (content : PyStr) : PerfSummary :=
  runKeep perfLineStep id emptyPerfSummary (pySplit '\n' content)

/-! ## Message flows, dataset and the synthetic generator -/

/-- One row of `self.message_flows` (columns of `message-flow-tracking.txt`). -/
structure FlowRec where
  time : ℚ
  bundle_id : ℤ
  from_node : ℤ
  to_node : ℤ
  action : PyStr
  node_type : ℤ
deriving DecidableEq, Repr

/-- The full in-memory dataset of `DTNNetworkVisualizer`. -/
structure Dataset where
  node_positions : NodeDict
  message_flows : List FlowRec
  performance_data : PerfSummary
deriving DecidableEq, Repr

/-- One node produced by `generate_sample_data` (lines 122-138). The random
coordinates of mobile nodes are modelled by an injected source `rng`. -/
def sampleNode (rng : ℕ → ℚ × ℚ) (i : ℕ) : NodeRec :=
  let t : ℤ := (i : ℤ) % 8
  let mob : Bool := decide (t < 4)
  let xy : ℚ × ℚ :=
    if mob then rng i else (((i / 8 : ℕ) : ℚ) * 250, ((i % 8 : ℕ) : ℚ) * 200)
  ⟨xy.1, xy.2, t, mob⟩

/-- The node dict built by the first loop of `generate_sample_data`,
generalized over the loop bound (the source uses `range(120)`). -/
def sampleNodesUpTo (rng : ℕ → ℚ × ℚ) (n : ℕ) : NodeDict :=
  (List.range n).foldl (fun (m : NodeDict) (i : ℕ) =>
    dictInsert m ((i : ℤ)) (sampleNode rng i)) []

/-- `DTNNetworkVisualizer.generate_sample_data`: 120 nodes, 50 flow events
and the fixed summary `avg_delay = 45.2`, `avg_throughput = 125.8`,
`total_flows = 50`. -/
def generate_sample_data (rng : ℕ → ℚ × ℚ) : Dataset where
  node_positions := sampleNodesUpTo rng 120
  message_flows :=
    (List.range 50).map (fun (i : ℕ) =>
      ⟨((i : ℚ)) * 2, ((i : ℤ)), ((i : ℤ)) % 120, (((i : ℤ)) + 60) % 120,
        pyStr "FORWARDED", (((i : ℤ)) % 120) % 8⟩)
  performance_data := ⟨some (45.2 : ℚ), some (125.8 : ℚ), some 50⟩

/-- File-level behaviour of `load_node_positions` (line 58): an absent file
leaves the dict empty, with no exception raised. -/
def load_node_positions_file (f : Option PyStr) : NodeDict :=
  match f with
  | none => []
  | some c => load_node_positions c

/-- File-level behaviour of `load_message_flows` (lines 86-94): an absent
file leaves the flow list empty; `pd.read_csv` is an external collaborator,
modelled by the injected `readCsv`, whose failure (`none`) is caught locally
and leaves the flow list empty. -/
def load_message_flows_file (readCsv : PyStr → Option (List FlowRec))
    (f : Option PyStr) : List FlowRec :=
  match f with
  | none => []
  | some c => (readCsv c).getD []

/-- File-level behaviour of `load_performance_metrics` (line 99). -/
def load_performance_metrics_file (f : Option PyStr) : PerfSummary :=
  match f with
  | none => emptyPerfSummary
  | some c => load_performance_metrics c

/-- `DTNNetworkVisualizer.load_simulation_data` (lines 40-53). Each of the
three loaders catches every exception internally and treats an absent file
as a silent no-op, so the `except` branch of `load_simulation_data` — the
only call site of `generate_sample_data` — is unreachable: the orchestration
never raises, whatever the files contain. The embedding therefore has no
fallback path. -/
def load_simulation_data (readCsv : PyStr → Option (List FlowRec))
    (perfFile msgFile : Option PyStr) : Dataset where
  node_positions := load_node_positions_file perfFile
  message_flows := load_message_flows_file readCsv msgFile
  performance_data := load_performance_metrics_file perfFile

/-! ## Data model of `dtn-visualization-scripts.py` -/

/-- Entry of `self.performance_data` in `DTNVisualizationFramework`. -/
structure ProtocolMetrics where
  delay : ℚ
  bandwidth : ℚ
  response : ℚ
  data_loss : ℚ
  energy : ℚ
  scalability : ℚ
deriving DecidableEq, Repr

abbrev PerfDict := List (PyStr × ProtocolMetrics)

/-- The dict literal stored by `parse_simulation_data` for one `DTN_METRICS`
row (lines 70-77). -/
def metricsRowToRecord (delay throughput delivery_ratio energy_efficiency : ℚ) :
    ProtocolMetrics where
  delay := delay
  bandwidth := throughput * 10
  response := delay * 0.8
  data_loss := 100 - delivery_ratio
  energy := 1 - energy_efficiency
  scalability := delivery_ratio * 100

/-- Body of the parse branch of the `DTN_METRICS` loop (lines 61-77): at
least 5 fields, `parts[0]` is the protocol name, `parts[1..4]` are converted
to floats; a conversion failure is an exception (`none`). -/
def parseMetricsLine (m : PerfDict) (line : PyStr) : Option PerfDict :=
  if (pySplit ',' (pyStrip line)).length ≥ 5 then
    match pyFloat (pySplit ',' (pyStrip line))[1]!, pyFloat (pySplit ',' (pyStrip line))[2]!,
        pyFloat (pySplit ',' (pyStrip line))[3]!, pyFloat (pySplit ',' (pyStrip line))[4]! with
    | some d, some t, some dr, some ee =>
      some (dictInsert m (pySplit ',' (pyStrip line))[0]! (metricsRowToRecord d t dr ee))
    | _, _, _, _ => none
  else some m

/-- One iteration of the `DTN_METRICS` loop of `parse_simulation_data`
(lines 52-77): a line stripping to `DTN_METRICS` turns the section on, a
line whose stripped form starts with `NODE_PERFORMANCE` turns it off;
inside the section a line containing a comma and not starting with
`Protocol` is parsed. -/
def metricsLineStep (st : Bool × PerfDict) (line : PyStr) :
    Option (Bool × PerfDict) :=
  if pyStrip line = pyStr "DTN_METRICS" then some (true, st.2)
  else if pyStartsWith (pyStrip line) (pyStr "NODE_PERFORMANCE") then some (false, st.2)
  else if st.1 ∧ pyContainsChar line ',' ∧ ¬ pyStartsWith line (pyStr "Protocol") then
    (parseMetricsLine st.2 line).map (fun m => (st.1, m))
  else some st

/-- One row of `self.time_series_data` (lines 89-95). -/
structure TimeSeriesRec where
  time : ℚ
  delay : ℚ
  throughput : ℚ
  packet_loss : ℚ
  active_nodes : ℤ
deriving DecidableEq, Repr

/-- Body of the parse branch of the `TIME_SERIES_DATA` loop (lines 87-95):
five floats positionally, `active_nodes = int(float(parts[4]))`. -/
def parseTimeSeriesLine (ts : List TimeSeriesRec) (line : PyStr) :
    Option (List TimeSeriesRec) :=
  if (pySplit ',' (pyStrip line)).length ≥ 5 then
    match pyFloat (pySplit ',' (pyStrip line))[0]!, pyFloat (pySplit ',' (pyStrip line))[1]!,
        pyFloat (pySplit ',' (pyStrip line))[2]!, pyFloat (pySplit ',' (pyStrip line))[3]!,
        pyFloat (pySplit ',' (pyStrip line))[4]! with
    | some t, some d, some th, some pl, some an =>
      some (ts ++ [⟨t, d, th, pl, ratTrunc an⟩])
    | _, _, _, _, _ => none
  else some ts

/-- One iteration of the `TIME_SERIES_DATA` loop (lines 82-95). -/
def tsLineStep (st : Bool × List TimeSeriesRec) (line : PyStr) :
    Option (Bool × List TimeSeriesRec) :=
  if pyStrip line = pyStr "TIME_SERIES_DATA" then some (true, st.2)
  else if st.1 ∧ pyContainsChar line ',' ∧ ¬ pyStartsWith line (pyStr "Time") then
    (parseTimeSeriesLine st.2 line).map (fun ts => (st.1, ts))
  else some st

/-- `DTNVisualizationFramework.parse_simulation_data` on an already
line-split input: the metrics loop runs first, then the time-series loop
over the same lines; an exception in either propagates out (`none`). -/
def parse_simulation_data_lines (ls : List PyStr) :
    Option (PerfDict × List TimeSeriesRec) :=
  match runSteps metricsLineStep (false, []) ls with
  | none => none
  | some (_, pd) =>
    match runSteps tsLineStep (false, []) ls with
    | none => none
    | some (_, ts) => some (pd, ts)

/-- `DTNVisualizationFramework.parse_simulation_data` on the file content. -/
def parse_simulation_data (content : PyStr) :
    Option (PerfDict × List TimeSeriesRec) :=
  parse_simulation_data_lines (pySplit '\n' content)

/-- The protocol table assigned by `use_default_data` (lines 105-110). -/
def defaultPerformanceData : PerfDict :=
  [(pyStr "OurDTN", ⟨25, 14, 20, 15, 0.1, 850⟩),
   (pyStr "Epidemic", ⟨65, 6, 52, 40, 0.4, 600⟩),
   (pyStr "PROPHET", ⟨42, 12, 34, 25, 0.2, 750⟩),
   (pyStr "SprayAndWait", ⟨51, 10, 41, 30, 0.25, 700⟩)]

/-- The `performance_data` dict after `DTNVisualizationFramework.
load_simulation_data` (lines 32-44 together with lines 97-101): an absent
file, an exception during parsing, or an empty parsed protocol table all
end in `use_default_data`, which overwrites the dict wholesale. -/
def loadStatsPerformanceData (file : Option PyStr) : PerfDict :=
  match file with
  | none => defaultPerformanceData
  | some c =>
    match parse_simulation_data c with
    | none => defaultPerformanceData
    | some (pd, _) => if pd.isEmpty then defaultPerformanceData else pd

/-! ## Radar-chart metric normalization (`create_performance_radar_chart`) -/

/-- Normalized delay score, line 180: `100 - delay / 20`. -/
def delayScore (delay : ℚ) : ℚ := 100 - delay / 20

/-- Normalized bandwidth score, line 181: the raw value, unscaled. -/
def bandwidthScore (bandwidth : ℚ) : ℚ := bandwidth

/-- Normalized response score, line 182: `100 - response / 5`. -/
def responseScore (response : ℚ) : ℚ := 100 - response / 5

/-- Normalized data-loss score, line 183: `100 - data_loss * 5`. -/
def dataLossScore (data_loss : ℚ) : ℚ := 100 - data_loss * 5

/-- Normalized energy score, line 184: `100 - energy * 1000`. -/
def energyScore (energy : ℚ) : ℚ := 100 - energy * 1000

/-- Normalized scalability score, line 185: `min(100, scalability / 100)`. -/
def scalabilityScore (scalability : ℚ) : ℚ := min 100 (scalability / 100)

/-- The six radar values of one protocol (lines 179-186). -/
def radarValues (m : ProtocolMetrics) : List ℚ :=
  [delayScore m.delay, bandwidthScore m.bandwidth, responseScore m.response,
   dataLossScore m.data_loss, energyScore m.energy, scalabilityScore m.scalability]

/-! ## Coverage grid (`create_performance_dashboard`, lines 327-339) -/

/-- The 20 cell-center coordinates `np.linspace(0, 1500, 20)`. -/
def gridCenters : List ℚ := (List.range 20).map (fun i => 1500 * (i : ℚ) / 19)

/-- Squared Euclidean distance; the source compares
`sqrt(dx^2 + dy^2) < r`, which for `r ≥ 0` is `dx^2 + dy^2 < r^2`. -/
def distSq (x1 y1 x2 y2 : ℚ) : ℚ := (x1 - x2) ^ 2 + (y1 - y2) ^ 2

/-- Coverage count of one grid cell center: the number of nodes strictly
within range `r` of `(cx, cy)` (lines 334-338; default `r = 250`). -/
def coverage (nodes : List NodeRec) (r cx cy : ℚ) : ℕ :=
  nodes.countP (fun nd => decide (distSq cx cy nd.x nd.y < r ^ 2))

/-- The full 20x20 coverage matrix (`coverage_matrix[j, i]`, row `j` ranges
over `y`, column `i` over `x`). -/
def coverage_matrix (nodes : List NodeRec) (r : ℚ) : List (List ℕ) :=
  gridCenters.map (fun y => gridCenters.map (fun x => coverage nodes r x y))

/-! ## Helper lemmas -/

theorem toNatDigit0 : ('0').toNat = 48 := rfl

theorem toNatDigit1 : ('1').toNat = 49 := rfl

theorem toNatDigit2 : ('2').toNat = 50 := rfl

theorem toNatDigit3 : ('3').toNat = 51 := rfl

theorem toNatDigit4 : ('4').toNat = 52 := rfl

theorem toNatDigit5 : ('5').toNat = 53 := rfl

theorem toNatDigit6 : ('6').toNat = 54 := rfl

theorem toNatDigit7 : ('7').toNat = 55 := rfl

theorem toNatDigit8 : ('8').toNat = 56 := rfl

theorem toNatDigit9 : ('9').toNat = 57 := rfl

theorem runSteps_append {σ : Type} (step : σ → PyStr → Option σ) :
    ∀ (ls₁ : List PyStr) {st st' : σ} (ls₂ : List PyStr),
      runSteps step st ls₁ = some st' →
      runSteps step st (ls₁ ++ ls₂) = runSteps step st' ls₂ := by
  intro ls₁
  induction ls₁ with
  | nil =>
    intro st st' ls₂ h
    simp only [runSteps, Option.some.injEq] at h
    subst h
    rfl
  | cons l ls ih =>
    intro st st' ls₂ h
    simp only [runSteps] at h
    rw [List.cons_append]
    simp only [runSteps]
    cases hs : step st l with
    | none => rw [hs] at h; exact absurd h (by simp)
    | some st1 => rw [hs] at h; simpa using ih ls₂ h

theorem runSteps_abort {σ : Type} (step : σ → PyStr → Option σ) {st : σ}
    {l : PyStr} (ls : List PyStr) (h : step st l = none) :
    runSteps step st (l :: ls) = none := by
  simp [runSteps, h]

theorem runKeep_of_runSteps {σ τ : Type} (step : σ → PyStr → Option σ)
    (out : σ → τ) :
    ∀ (ls₁ : List PyStr) {st st' : σ} (ls₂ : List PyStr),
      runSteps step st ls₁ = some st' →
      runKeep step out st (ls₁ ++ ls₂) = runKeep step out st' ls₂ := by
  intro ls₁
  induction ls₁ with
  | nil =>
    intro st st' ls₂ h
    simp only [runSteps, Option.some.injEq] at h
    subst h
    rfl
  | cons l ls ih =>
    intro st st' ls₂ h
    simp only [runSteps] at h
    rw [List.cons_append]
    simp only [runKeep]
    cases hs : step st l with
    | none => rw [hs] at h; exact absurd h (by simp)
    | some st1 => rw [hs] at h; simpa using ih ls₂ h

theorem runKeep_abort {σ τ : Type} (step : σ → PyStr → Option σ) (out : σ → τ)
    {st : σ} {l : PyStr} (ls : List PyStr) (h : step st l = none) :
    runKeep step out st (l :: ls) = out st := by
  simp [runKeep, h]

theorem keys_dictInsert_of_mem {κ α : Type} [DecidableEq κ]
    {m : List (κ × α)} {k : κ} (v : α) (h : k ∈ m.map Prod.fst) :
    (dictInsert m k v).map Prod.fst = m.map Prod.fst := by
  unfold dictInsert
  rw [if_pos h, List.map_map]
  apply List.map_congr_left
  intro p _
  by_cases hp : p.1 = k
  · simp only [Function.comp_apply, if_pos hp]
    exact hp.symm
  · simp only [Function.comp_apply, if_neg hp]

theorem keys_dictInsert_of_not_mem {κ α : Type} [DecidableEq κ]
    {m : List (κ × α)} {k : κ} (v : α) (h : k ∉ m.map Prod.fst) :
    (dictInsert m k v).map Prod.fst = m.map Prod.fst ++ [k] := by
  unfold dictInsert
  rw [if_neg h]
  simp

theorem nodup_keys_dictInsert {κ α : Type} [DecidableEq κ]
    {m : List (κ × α)} (k : κ) (v : α) (h : (m.map Prod.fst).Nodup) :
    ((dictInsert m k v).map Prod.fst).Nodup := by
  by_cases hk : k ∈ m.map Prod.fst
  · rw [keys_dictInsert_of_mem v hk]; exact h
  · rw [keys_dictInsert_of_not_mem v hk]
    rw [List.nodup_append]
    exact ⟨h, List.nodup_singleton _, by simpa [List.disjoint_singleton] using hk⟩

theorem dictLookup_update {κ α : Type} [DecidableEq κ] (k : κ) (v : α) :
    ∀ (m : List (κ × α)), k ∈ m.map Prod.fst →
      dictLookup k (m.map (fun p => if p.1 = k then (k, v) else p)) = some v := by
  intro m
  induction m with
  | nil => intro h; simp at h
  | cons hd tl ih =>
    intro h
    by_cases hk : hd.1 = k
    · simp [dictLookup, hk]
    · have hmem : k ∈ tl.map Prod.fst := by
        rw [List.map_cons] at h
        rcases List.mem_cons.mp h with h1 | h1
        · exact absurd h1.symm hk
        · exact h1
      simpa [dictLookup, hk] using ih hmem

theorem dictLookup_append_last {κ α : Type} [DecidableEq κ] (k : κ) (v : α) :
    ∀ (m : List (κ × α)), k ∉ m.map Prod.fst →
      dictLookup k (m ++ [(k, v)]) = some v := by
  intro m
  induction m with
  | nil => intro _; simp [dictLookup]
  | cons hd tl ih =>
    intro h
    have h1 : ¬hd.1 = k := by intro he; exact h (by simp [← he])
    have h2 : k ∉ tl.map Prod.fst := fun hm => h (by simp [hm])
    simpa [dictLookup, h1] using ih h2

theorem dictLookup_dictInsert {κ α : Type} [DecidableEq κ]
    (m : List (κ × α)) (k : κ) (v : α) :
    dictLookup k (dictInsert m k v) = some v := by
  unfold dictInsert
  by_cases h : k ∈ m.map Prod.fst
  · rw [if_pos h]
    exact dictLookup_update k v m h
  · rw [if_neg h]
    exact dictLookup_append_last k v m h

theorem parseNodeLine_nodup {m d : NodeDict} {l : PyStr}
    (hp : parseNodeLine m l = some d) (h : (m.map Prod.fst).Nodup) :
    (d.map Prod.fst).Nodup := by
  unfold parseNodeLine at hp
  split at hp
  · split at hp
    · cases hp
      exact nodup_keys_dictInsert _ _ h
    · exact absurd hp (by simp)
  · cases hp
    exact h

theorem nodeLineStep_nodup {st st' : Bool × NodeDict} {l : PyStr}
    (hs : nodeLineStep st l = some st') (h : (st.2.map Prod.fst).Nodup) :
    (st'.2.map Prod.fst).Nodup := by
  unfold nodeLineStep at hs
  split at hs
  · cases hs
    exact h
  · split at hs
    · cases hp : parseNodeLine st.2 l with
      | none => rw [hp] at hs; exact absurd hs (by simp)
      | some d =>
        rw [hp] at hs
        cases hs
        exact parseNodeLine_nodup hp h
    · cases hs
      exact h

theorem runKeep_node_nodup :
    ∀ (ls : List PyStr) (st : Bool × NodeDict), (st.2.map Prod.fst).Nodup →
      ((runKeep nodeLineStep Prod.snd st ls).map Prod.fst).Nodup := by
  intro ls
  induction ls with
  | nil => intro st h; simpa [runKeep] using h
  | cons l ls ih =>
    intro st h
    cases hs : nodeLineStep st l with
    | none => simpa [runKeep, hs] using h
    | some st' =>
      simp only [runKeep, hs]
      exact ih st' (nodeLineStep_nodup hs h)

theorem sampleNodesUpTo_keys (rng : ℕ → ℚ × ℚ) :
    ∀ n : ℕ, (sampleNodesUpTo rng n).map Prod.fst
      = (List.range n).map (fun (i : ℕ) => ((i : ℤ))) := by
  intro n
  induction n with
  | zero => simp [sampleNodesUpTo]
  | succ n ih =>
    have hnot : ((n : ℤ)) ∉ (sampleNodesUpTo rng n).map Prod.fst := by
      rw [ih]
      intro hmem
      obtain ⟨i, hi, hq⟩ := List.mem_map.mp hmem
      have hin : i < n := List.mem_range.mp hi
      have : i = n := by exact_mod_cast hq
      omega
    have hstep : sampleNodesUpTo rng (n + 1)
        = dictInsert (sampleNodesUpTo rng n) ((n : ℤ)) (sampleNode rng n) := by
      unfold sampleNodesUpTo
      rw [List.range_succ, List.foldl_append, List.foldl_cons, List.foldl_nil]
    rw [hstep, keys_dictInsert_of_not_mem _ hnot, ih]
    rw [List.range_succ, List.map_append]
    simp

/-! ## Claim theorems -/

/-- C1: the claim says that with both trace files absent the dataset is
populated by the synthetic generator (120 nodes, 50 flow events,
`totalFlows == 50`). In the code the `except` fallback of
`load_simulation_data` is dead — each inner loader swallows its own
exceptions and treats an absent file as a silent no-op — so the loaded
dataset is empty: no nodes, no flows, no summary. The generator itself,
were it reached, would indeed produce 120 nodes, 50 flows and
`total_flows = 50`. -/
theorem c1_missing_files_dataset :
    ∀ (readCsv : PyStr → Option (List FlowRec)) (rng : ℕ → ℚ × ℚ),
      load_simulation_data readCsv none none = ⟨[], [], emptyPerfSummary⟩
      ∧ (generate_sample_data rng).node_positions.length = 120
      ∧ (generate_sample_data rng).message_flows.length = 50
      ∧ (generate_sample_data rng).performance_data.total_flows = some 50 := by
  intro readCsv rng
  refine ⟨?_, ?_, ?_, ?_⟩
  · rfl
  · have hp : (generate_sample_data rng).node_positions = sampleNodesUpTo rng 120 := by
      dsimp only [generate_sample_data]
    have h := congrArg List.length (sampleNodesUpTo_keys rng 120)
    rw [List.length_map, List.length_map, List.length_range] at h
    rw [hp, h]
  · exact (List.length_map _ _).trans (List.length_range 50)
  · rfl

/-- C2 (amended): a numeric conversion failure on a line does not merely
drop that line — it aborts the parse of the rest of the file. In
`load_node_positions` the records parsed before the bad line are kept and
every later line is never parsed; in `parse_simulation_data` the exception
propagates to `load_simulation_data`, and the whole protocol table is
replaced by the defaults. -/
theorem c2_conversion_failure_aborts :
    (∀ (ls₁ : List PyStr) (bad : PyStr) (ls₂ : List PyStr) (st : Bool × NodeDict),
        runSteps nodeLineStep (false, []) ls₁ = some st →
        nodeLineStep st bad = none →
        load_node_positions_lines (ls₁ ++ bad :: ls₂) = st.2)
    ∧ (∀ (ls₁ : List PyStr) (bad : PyStr) (ls₂ : List PyStr) (st : Bool × PerfDict),
        runSteps metricsLineStep (false, []) ls₁ = some st →
        metricsLineStep st bad = none →
        parse_simulation_data_lines (ls₁ ++ bad :: ls₂) = none)
    ∧ (∀ c : PyStr, parse_simulation_data c = none →
        loadStatsPerformanceData (some c) = defaultPerformanceData) := by
  refine ⟨?_, ?_, ?_⟩
  · intro ls₁ bad ls₂ st h1 h2
    unfold load_node_positions_lines
    rw [runKeep_of_runSteps _ _ ls₁ _ h1, runKeep_abort _ _ _ h2]
  · intro ls₁ bad ls₂ st h1 h2
    unfold parse_simulation_data_lines
    rw [runSteps_append _ ls₁ _ h1, runSteps_abort _ _ h2]
  · intro c h
    show (match parse_simulation_data c with
      | none => defaultPerformanceData
      | some (pd, _) =>
        if pd.isEmpty then defaultPerformanceData else pd) = defaultPerformanceData
    rw [h]

/-- C5: the scalability score `min(100, scalability/100)` is at most 100
for every non-negative input, is not clamped below (0 maps to 0, 20000 to
100), and each of the other five scores can leave `[0, 100]` on inputs
outside the assumed ranges. -/
theorem c5_scalability_clamped_above_only :
    (∀ s : ℚ, 0 ≤ s → scalabilityScore s ≤ 100)
    ∧ scalabilityScore 0 = 0
    ∧ scalabilityScore 20000 = 100
    ∧ delayScore 4000 < 0
    ∧ 100 < bandwidthScore 200
    ∧ responseScore 1000 < 0
    ∧ dataLossScore 30 < 0
    ∧ energyScore 1 < 0 := by
  refine ⟨fun s _ => min_le_left _ _, ?_, ?_, ?_, ?_, ?_, ?_, ?_⟩
  · norm_num [scalabilityScore]
  · norm_num [scalabilityScore]
  · norm_num [delayScore]
  · norm_num [bandwidthScore]
  · norm_num [responseScore]
  · norm_num [dataLossScore]
  · norm_num [energyScore]

/-- Witness for C5 at concrete inputs. -/
theorem c5_scalability_clamped_above_only_witness :
    scalabilityScore 850 ≤ 100 :=
  c5_scalability_clamped_above_only.1 850 (by norm_num)

/-- C6: every coverage value is a non-negative integer, and for a fixed
node set coverage at every cell center is monotonically non-decreasing in
the range threshold. -/
theorem c6_coverage_monotone :
    (∀ (nodes : List NodeRec) (r cx cy : ℚ),
        (0 : ℤ) ≤ ((coverage nodes r cx cy : ℤ)))
    ∧ (∀ (nodes : List NodeRec) (r1 r2 cx cy : ℚ), 0 ≤ r1 → r1 ≤ r2 →
        coverage nodes r1 cx cy ≤ coverage nodes r2 cx cy) := by
  constructor
  · intro nodes r cx cy
    exact Int.natCast_nonneg _
  · intro nodes r1 r2 cx cy h0 h12
    apply List.countP_mono_left
    intro nd _ h
    simp only [decide_eq_true_eq] at h ⊢
    exact lt_of_lt_of_le h (pow_le_pow_left₀ h0 h12 2)

/-- Witness for C6 at a concrete node set and thresholds. -/
theorem c6_coverage_monotone_witness :
    coverage [⟨0, 0, 0, true⟩] 100 0 0 ≤ coverage [⟨0, 0, 0, true⟩] 250 0 0 :=
  c6_coverage_monotone.2 [⟨0, 0, 0, true⟩] 100 250 0 0 (by norm_num) (by norm_num)

/-- C8: every parsing stage is a pure function of the input text — two
runs on equal inputs produce equal datasets. In the embedding each stage
is a total function with no other parameters; the source's only mutable
state (`self.*`) is rebuilt from scratch on every run, so text determines
the dataset. -/
theorem c8_parse_deterministic :
    ∀ c₁ c₂ : PyStr, c₁ = c₂ →
      load_node_positions c₁ = load_node_positions c₂
      ∧ parse_simulation_data c₁ = parse_simulation_data c₂
      ∧ load_performance_metrics c₁ = load_performance_metrics c₂
      ∧ loadStatsPerformanceData (some c₁) = loadStatsPerformanceData (some c₂) := by
  intro c₁ c₂ h
  subst h
  exact ⟨rfl, rfl, rfl, rfl⟩

/-- Witness for C8 at a concrete input. -/
theorem c8_parse_deterministic_witness :
    load_node_positions (pyStr "x") = load_node_positions (pyStr "x")
    ∧ parse_simulation_data (pyStr "x") = parse_simulation_data (pyStr "x")
    ∧ load_performance_metrics (pyStr "x") = load_performance_metrics (pyStr "x")
    ∧ loadStatsPerformanceData (some (pyStr "x"))
      = loadStatsPerformanceData (some (pyStr "x")) :=
  c8_parse_deterministic (pyStr "x") (pyStr "x") rfl

/-- C10: once the `NODE_POSITIONS` marker has been seen the parser never
leaves the position-parsing state, and every later line that contains a
comma and does not start with `NodeID` — whatever section it belongs to —
is handed to the node-record parser. -/
theorem c10_position_state_absorbing :
    (∀ (m : NodeDict) (line : PyStr) (st' : Bool × NodeDict),
        nodeLineStep (true, m) line = some st' → st'.1 = true)
    ∧ (∀ (m : NodeDict) (line : PyStr),
        pyStrip line ≠ pyStr "NODE_POSITIONS" →
        pyContainsChar line ',' = true →
        pyStartsWith line (pyStr "NodeID") = false →
        nodeLineStep (true, m) line
          = (parseNodeLine m line).map (fun m' => (true, m'))) := by
  constructor
  · intro m line st' h
    unfold nodeLineStep at h
    split at h
    · cases h; rfl
    · split at h
      · cases hp : parseNodeLine m line with
        | none => rw [hp] at h; exact absurd h (by simp)
        | some d => rw [hp] at h; cases h; rfl
      · cases h; rfl
  · intro m line h1 h2 h3
    unfold nodeLineStep
    rw [if_neg h1, if_pos (by simp [h2, h3])]

/-- Witness for C10 at concrete lines. -/
theorem c10_position_state_absorbing_witness :
    ((true, ([] : NodeDict)) : Bool × NodeDict).1 = true
    ∧ nodeLineStep (true, ([] : NodeDict)) (pyStr "DTN_METRICS")
      = some (true, ([] : NodeDict)) ∧
    nodeLineStep (true, ([] : NodeDict)) (pyStr "9,9,9.0,9.0,e")
      = (parseNodeLine [] (pyStr "9,9,9.0,9.0,e")).map (fun m' => (true, m')) :=
  ⟨c10_position_state_absorbing.1 [] (pyStr "DTN_METRICS") (true, []) (by decide),
   by decide,
   c10_position_state_absorbing.2 [] (pyStr "9,9,9.0,9.0,e")
     (by decide) (by decide) (by decide)⟩

/-- Witness for C2: a concrete file whose third line fails integer
conversion keeps the record of the second line and never parses the
well-formed fifth line. -/
theorem c2_conversion_failure_aborts_witness :
    load_node_positions_lines
      [pyStr "NODE_POSITIONS", pyStr "1,2,3.0,4.0,x", pyStr "b,2,3.0,4.0,x",
        pyStr "5,6,7.0,8.0,x"]
      = [(1, ⟨3, 4, 2, true⟩)] := by
  have h1 : runSteps nodeLineStep (false, [])
      [pyStr "NODE_POSITIONS", pyStr "1,2,3.0,4.0,x"]
      = some (true, [(1, ⟨3, 4, 2, true⟩)]) := by
    norm_num +decide [runSteps, nodeLineStep, parseNodeLine, pyStr, pyStrip, pySplit,
      pySpace, pyContainsChar, pyStartsWith, pyInt, pyIntCore, pyFloat, pyFloatCore,
      digitsVal, dictInsert, List.isPrefixOf, toNatDigit1, toNatDigit2, toNatDigit3,
      toNatDigit4]
  have h2 : nodeLineStep (true, [(1, ⟨3, 4, 2, true⟩)]) (pyStr "b,2,3.0,4.0,x")
      = none := by
    norm_num +decide [nodeLineStep, parseNodeLine, pyStr, pyStrip, pySplit, pySpace,
      pyContainsChar, pyStartsWith, pyInt, pyIntCore, pyFloat, pyFloatCore, digitsVal,
      List.isPrefixOf]
  simpa using c2_conversion_failure_aborts.1
    [pyStr "NODE_POSITIONS", pyStr "1,2,3.0,4.0,x"] (pyStr "b,2,3.0,4.0,x")
    [pyStr "5,6,7.0,8.0,x"] (true, [(1, ⟨3, 4, 2, true⟩)]) h1 h2

/-- Counterexample for C2 as stated: in the same file the well-formed line
`5,6,7.0,8.0,x` after the bad line contributes no record (the claim says it
still appears), although on its own it parses fine. -/
theorem c2_bad_line_loses_later_records :
    dictLookup 1 (load_node_positions_lines
      [pyStr "NODE_POSITIONS", pyStr "1,2,3.0,4.0,x", pyStr "b,2,3.0,4.0,x",
        pyStr "5,6,7.0,8.0,x"]) = some ⟨3, 4, 2, true⟩
    ∧ dictLookup 5 (load_node_positions_lines
      [pyStr "NODE_POSITIONS", pyStr "1,2,3.0,4.0,x", pyStr "b,2,3.0,4.0,x",
        pyStr "5,6,7.0,8.0,x"]) = none
    ∧ dictLookup 5 (load_node_positions_lines
      [pyStr "NODE_POSITIONS", pyStr "5,6,7.0,8.0,x"]) = some ⟨7, 8, 6, false⟩ := by
  refine ⟨?_, ?_, ?_⟩ <;>
    norm_num +decide [load_node_positions_lines, runKeep, nodeLineStep, parseNodeLine,
      pyStr, pyStrip, pySplit, pySpace, pyContainsChar, pyStartsWith, pyInt, pyIntCore,
      pyFloat, pyFloatCore, digitsVal, dictInsert, dictLookup, List.isPrefixOf,
      toNatDigit1, toNatDigit2, toNatDigit3, toNatDigit4, toNatDigit5, toNatDigit6,
      toNatDigit7, toNatDigit8]

/-- C3 (amended): a node record is produced for a `NODE_POSITIONS` line
with at least 5 comma-separated fields (the code's bound, not the claimed
4) whose first four fields convert; the record carries exactly those field
values, extra fields ignored, and `is_mobile = (type < 4)`; the line
`5,1,100.0,200.0,extra` yields node 5 at (100, 200) of type 1, mobile. -/
theorem c3_node_line_five_fields :
    (∀ (m : NodeDict) (line : PyStr) (i t : ℤ) (x y : ℚ),
        pyStrip line ≠ pyStr "NODE_POSITIONS" →
        pyContainsChar line ',' = true →
        pyStartsWith line (pyStr "NodeID") = false →
        (pySplit ',' (pyStrip line)).length ≥ 5 →
        pyInt (pySplit ',' (pyStrip line))[0]! = some i →
        pyInt (pySplit ',' (pyStrip line))[1]! = some t →
        pyFloat (pySplit ',' (pyStrip line))[2]! = some x →
        pyFloat (pySplit ',' (pyStrip line))[3]! = some y →
        nodeLineStep (true, m) line
          = some (true, dictInsert m i ⟨x, y, t, decide (t < 4)⟩))
    ∧ load_node_positions_lines [pyStr "NODE_POSITIONS", pyStr "5,1,100.0,200.0,extra"]
        = [(5, ⟨100, 200, 1, true⟩)] := by
  constructor
  · intro m line i t x y hm hc hsw hlen h0 h1 h2 h3
    unfold nodeLineStep
    rw [if_neg hm, if_pos (by simp [hc, hsw])]
    unfold parseNodeLine
    rw [if_pos hlen, h0, h1, h2, h3]
    simp
  · norm_num +decide [load_node_positions_lines, runKeep, nodeLineStep, parseNodeLine,
      pyStr, pyStrip, pySplit, pySpace, pyContainsChar, pyStartsWith, pyInt, pyIntCore,
      pyFloat, pyFloatCore, digitsVal, dictInsert, List.isPrefixOf, toNatDigit0,
      toNatDigit1, toNatDigit2, toNatDigit5]

/-- Witness for C3 at the concrete line of the claim. -/
theorem c3_node_line_five_fields_witness :
    nodeLineStep (true, ([] : NodeDict)) (pyStr "5,1,100.0,200.0,extra")
      = some (true, dictInsert [] 5 ⟨(100 : ℚ), 200, 1, decide ((1 : ℤ) < 4)⟩) :=
  c3_node_line_five_fields.1 [] (pyStr "5,1,100.0,200.0,extra") 5 1 100 200
    (by decide) (by decide) (by decide) (by decide) (by decide) (by decide)
    (by norm_num +decide [pyStr, pyStrip, pySplit, pySpace, pyFloat, pyFloatCore,
      digitsVal, toNatDigit0, toNatDigit1])
    (by norm_num +decide [pyStr, pyStrip, pySplit, pySpace, pyFloat, pyFloatCore,
      digitsVal, toNatDigit0, toNatDigit2])

/-- Counterexample for C3 as stated: the line `7,1,100.0,200.0` has exactly
4 comma-separated fields, all numerically valid, yet produces no node
because the code requires at least 5 fields. -/
theorem c3_four_field_line_dropped :
    load_node_positions_lines [pyStr "NODE_POSITIONS", pyStr "7,1,100.0,200.0"]
      = [] := by
  norm_num +decide [load_node_positions_lines, runKeep, nodeLineStep, parseNodeLine,
    pyStr, pyStrip, pySplit, pySpace, pyContainsChar, pyStartsWith, List.isPrefixOf]

/-- C4: every stored `DTN_METRICS` record satisfies the five derivation
rules (`bandwidth = throughput * 10`, `response = delay * 0.8`,
`data_loss = 100 - deliveryRatio`, `energy = 1 - energyEfficiency`,
`scalability = deliveryRatio * 100`), and the row
`OurDTN,25.0,14.0,90.0,0.9` parses to the record
(25, 140, 20, 10, 0.1, 9000). -/
theorem c4_metrics_row_mapping :
    (∀ d t dr ee : ℚ,
        (metricsRowToRecord d t dr ee).delay = d
        ∧ (metricsRowToRecord d t dr ee).bandwidth = t * 10
        ∧ (metricsRowToRecord d t dr ee).response = d * 0.8
        ∧ (metricsRowToRecord d t dr ee).data_loss = 100 - dr
        ∧ (metricsRowToRecord d t dr ee).energy = 1 - ee
        ∧ (metricsRowToRecord d t dr ee).scalability = dr * 100)
    ∧ parse_simulation_data (pyStr "DTN_METRICS\nOurDTN,25.0,14.0,90.0,0.9")
        = some ([(pyStr "OurDTN", ⟨25, 140, 20, 10, 0.1, 9000⟩)], []) := by
  constructor
  · intro d t dr ee
    exact ⟨rfl, rfl, rfl, rfl, rfl, rfl⟩
  · norm_num +decide [parse_simulation_data, parse_simulation_data_lines, runSteps,
      metricsLineStep, parseMetricsLine, tsLineStep, parseTimeSeriesLine,
      metricsRowToRecord, pyStr, pyStrip, pySplit, pySpace, pyContainsChar,
      pyStartsWith, pyFloat, pyFloatCore, digitsVal, dictInsert, List.isPrefixOf,
      toNatDigit0, toNatDigit1, toNatDigit2, toNatDigit4, toNatDigit5, toNatDigit9]

/-- C7 (amended): inside a section a line is skipped as a header exactly
when the raw line begins with the section's header word — a prefix match on
the whole line, not an equality test of its first field; any in-section
comma line not beginning with the header word is handed to the positional
parser. Consequently a data row whose first field merely begins with the
header word (a protocol named `ProtocolX`) is also skipped. -/
theorem c7_header_prefix_skip :
    (∀ (sec : Bool) (m : PerfDict) (line : PyStr),
        pyStrip line ≠ pyStr "DTN_METRICS" →
        pyStartsWith (pyStrip line) (pyStr "NODE_PERFORMANCE") = false →
        pyStartsWith line (pyStr "Protocol") = true →
        metricsLineStep (sec, m) line = some (sec, m))
    ∧ (∀ (m : PerfDict) (line : PyStr),
        pyStrip line ≠ pyStr "DTN_METRICS" →
        pyStartsWith (pyStrip line) (pyStr "NODE_PERFORMANCE") = false →
        pyContainsChar line ',' = true →
        pyStartsWith line (pyStr "Protocol") = false →
        metricsLineStep (true, m) line
          = (parseMetricsLine m line).map (fun m' => (true, m')))
    ∧ (∀ (m : NodeDict) (line : PyStr),
        pyStrip line ≠ pyStr "NODE_POSITIONS" →
        pyStartsWith line (pyStr "NodeID") = true →
        nodeLineStep (true, m) line = some (true, m))
    ∧ (∀ (ts : List TimeSeriesRec) (line : PyStr),
        pyStrip line ≠ pyStr "TIME_SERIES_DATA" →
        pyStartsWith line (pyStr "Time") = true →
        tsLineStep (true, ts) line = some (true, ts)) := by
  refine ⟨?_, ?_, ?_, ?_⟩
  · intro sec m line h1 h2 h3
    unfold metricsLineStep
    rw [if_neg h1, if_neg (by simp [h2]), if_neg (by simp [h3])]
  · intro m line h1 h2 hc h3
    unfold metricsLineStep
    rw [if_neg h1, if_neg (by simp [h2]), if_pos (by simp [hc, h3])]
  · intro m line h1 h2
    unfold nodeLineStep
    rw [if_neg h1, if_neg (by simp [h2])]
  · intro ts line h1 h2
    unfold tsLineStep
    rw [if_neg h1, if_neg (by simp [h2])]

/-- Witness for C7 at concrete lines. -/
theorem c7_header_prefix_skip_witness :
    metricsLineStep (true, ([] : PerfDict)) (pyStr "ProtocolX,25.0,14.0,90.0,0.9")
      = some (true, ([] : PerfDict))
    ∧ nodeLineStep (true, ([] : NodeDict)) (pyStr "NodeID,Type,X,Y,Extra")
      = some (true, ([] : NodeDict))
    ∧ tsLineStep (true, ([] : List TimeSeriesRec)) (pyStr "Time,Delay,Tput,Loss,Nodes")
      = some (true, ([] : List TimeSeriesRec)) :=
  ⟨c7_header_prefix_skip.1 true [] (pyStr "ProtocolX,25.0,14.0,90.0,0.9")
      (by decide) (by decide) (by decide),
   c7_header_prefix_skip.2.2.1 [] (pyStr "NodeID,Type,X,Y,Extra")
      (by decide) (by decide),
   c7_header_prefix_skip.2.2.2 [] (pyStr "Time,Delay,Tput,Loss,Nodes")
      (by decide) (by decide)⟩

/-- Counterexample for C7 as stated: the data row `ProtocolX,...` is
skipped (no record is stored for it), while the same row under a name that
does not begin with `Protocol` is parsed. -/
theorem c7_protocol_prefix_row_skipped :
    parse_simulation_data (pyStr "DTN_METRICS\nProtocolX,25.0,14.0,90.0,0.9")
      = some ([], [])
    ∧ parse_simulation_data (pyStr "DTN_METRICS\nXDTN,25.0,14.0,90.0,0.9")
      = some ([(pyStr "XDTN", ⟨25, 140, 20, 10, 0.1, 9000⟩)], []) := by
  constructor <;>
    norm_num +decide [parse_simulation_data, parse_simulation_data_lines, runSteps,
      metricsLineStep, parseMetricsLine, tsLineStep, parseTimeSeriesLine,
      metricsRowToRecord, pyStr, pyStrip, pySplit, pySpace, pyContainsChar,
      pyStartsWith, pyFloat, pyFloatCore, digitsVal, dictInsert, List.isPrefixOf,
      toNatDigit0, toNatDigit1, toNatDigit2, toNatDigit4, toNatDigit5, toNatDigit9]

/-- C9: the node dict never holds two entries with the same id; a repeated
id overwrites the earlier record in place (last occurrence wins); a file
with a duplicate id parses to completion with no exception, keeping only
the later record. -/
theorem c9_node_dict_unique :
    (∀ ls : List PyStr, ((load_node_positions_lines ls).map Prod.fst).Nodup)
    ∧ (∀ (m : NodeDict) (k : ℤ) (v : NodeRec), dictLookup k (dictInsert m k v) = some v)
    ∧ runSteps nodeLineStep (false, [])
        [pyStr "NODE_POSITIONS", pyStr "3,1,1.0,2.0,a", pyStr "3,5,9.0,9.0,b"]
      = some (true, [(3, ⟨9, 9, 5, false⟩)]) := by
  refine ⟨?_, ?_, ?_⟩
  · intro ls
    exact runKeep_node_nodup ls (false, []) (by simp)
  · intro m k v
    exact dictLookup_dictInsert m k v
  · norm_num +decide [runSteps, nodeLineStep, parseNodeLine, pyStr, pyStrip, pySplit,
      pySpace, pyContainsChar, pyStartsWith, pyInt, pyIntCore, pyFloat, pyFloatCore,
      digitsVal, dictInsert, List.isPrefixOf, toNatDigit1, toNatDigit2, toNatDigit3,
      toNatDigit5, toNatDigit9]
